import Mathlib

/-!
Verification of the emotion-stabilization and presence-aggregation core of the
Employee Monitoring System backend.

The development shallowly embeds the Python source:
* `src/backend/face_analyzer.py` — class `FEREmotionDetector` (the Stabilizer):
  `detect_emotion` and `_fallback_emotion`, with wall-clock time passed as an
  explicit rational parameter and each random draw passed as an explicit input.
* `src/backend/main.py` — `get_analytics` (the Aggregator), `get_frame` /
  `_get_demo_frame` / `detect_face_and_emotion` (the Sampler), and
  `create_detection` (persistence).

Machine floats appearing in the aggregator are modelled exactly: every Python
float operation is a correctly-rounded binary64 operation, rendered here as the
exact rational `nearestDouble` of the exact rational result.
-/

/-! ## Python-semantics helpers -/

/-- Python's `max(iterable, key=f)`: the first element attaining the maximal
key, `none` for an empty iterable (where CPython raises `ValueError`). -/
def pyMaxBy {α β : Type} [LinearOrder β] (f : α → β) : List α → Option α
  | [] => none
  | x :: xs => some (xs.foldl (fun best y => if f best < f y then y else best) x)

/-- The mean as computed by `np.mean`, on exact rationals (`0` on `[]`,
where NumPy yields NaN; every use site below has a nonempty list). -/
def meanQ (l : List ℚ) : ℚ := l.sum / (l.length : ℚ)

/-- One step of building a Python `dict` of counts in insertion order:
`m[k] = m.get(k, 0) + 1` — increments an existing key in place, otherwise
appends `(k, 1)`. -/
def bumpCount (m : List (String × ℕ)) (k : String) : List (String × ℕ) :=
  if m.any (fun p => p.1 == k) then
    m.map (fun p => if p.1 == k then (p.1, p.2 + 1) else p)
  else m ++ [(k, 1)]

/-- The counts dict built by `for l in ls: m[l] = m.get(l, 0) + 1`. -/
def countsFold (ls : List String) : List (String × ℕ) := ls.foldl bumpCount []

/-! ## Stabilizer state and inputs (`face_analyzer.py`) -/

/-- The mutable fields of `FEREmotionDetector` (`__init__`, lines 8–13).
Timestamps are rationals (seconds); confidences are exact rationals. -/
structure StabState where
  current_emotion : String
  emotion_confidence : ℚ
  last_emotion_change : ℚ
  emotion_buffer : List (String × ℚ)
  frame_count : ℕ
  ml_available : Bool
  deriving DecidableEq, Repr

/-- `FEREmotionDetector.__init__`: the state right after construction, at
construction time `t0` and with FER import succeeding iff `ml`. -/
def initialState (t0 : ℚ) (ml : Bool) : StabState :=
  { current_emotion := "neutral"
    emotion_confidence := 85
    last_emotion_change := t0
    emotion_buffer := []
    frame_count := 0
    ml_available := ml }

/-- Outcome of `self.detector.detect_emotions(rgb_frame)`: either a list of
faces, each carrying its emotions dict as an ordered association list of
(label, score), or an exception from the FER library / `cv2.cvtColor`. -/
inductive ClassifierResult where
  | ok (results : List (List (String × ℚ)))
  | exn
  deriving DecidableEq, Repr

/-- The random draws `_fallback_emotion` would make if its dwell check passes:
`random.choices(emotions, weights)[0]` and `random.uniform(70, 85)`. -/
structure FallbackDraw where
  emotion : String
  confidence : ℚ
  deriving DecidableEq, Repr

/-- `FEREmotionDetector._fallback_emotion` (lines 90–104), with the current
time `t` and the pending random draws passed explicitly. -/
def fallback_emotion (s : StabState) (t : ℚ) (fb : FallbackDraw) :
    StabState × (String × ℚ) :=
  -- time_since_change = (current_time - self.last_emotion_change).total_seconds()
  if 10 < t - s.last_emotion_change then
    let s' := { s with
      current_emotion := fb.emotion
      emotion_confidence := fb.confidence
      last_emotion_change := t }
    (s', (s'.current_emotion, s'.emotion_confidence))
  else
    (s, (s.current_emotion, s.emotion_confidence))

/-- Lines 55–57: `self.emotion_buffer.append(e)` followed by
`if len(self.emotion_buffer) > 5: self.emotion_buffer.pop(0)`. -/
def appendBounded (buf : List (String × ℚ)) (e : String × ℚ) :
    List (String × ℚ) :=
  if 5 < (buf ++ [e]).length then (buf ++ [e]).tail else buf ++ [e]

/-- Lines 60–80: the majority-voting block, acting on a state whose buffer has
already received the new sample.  `emotion_counts` is the insertion-ordered
counts dict; `best_emotion = max(emotion_counts, key=emotion_counts.get)`
returns the maximal key together with its stored count (dict keys are unique,
so the entry's second component is exactly `emotion_counts[best_emotion]`). -/
def voteStep (s : StabState) (t : ℚ) : StabState :=
  if 3 ≤ s.emotion_buffer.length then
    match pyMaxBy (fun kv => kv.2) (countsFold (s.emotion_buffer.map Prod.fst)) with
    | none => s    -- unreachable: the buffer, hence the dict, is nonempty here
    | some (best, bestCount) =>
      -- avg_confidence = np.mean([conf for emo, conf in buffer if emo == best])
      if best ≠ s.current_emotion ∧ 3 ≤ bestCount ∧
          2 < t - s.last_emotion_change ∧
          60 < meanQ ((s.emotion_buffer.filter (fun e => e.1 == best)).map Prod.snd) then
        { s with
          current_emotion := best
          emotion_confidence :=
            meanQ ((s.emotion_buffer.filter (fun e => e.1 == best)).map Prod.snd)
          last_emotion_change := t }
      else s
  else s

/-- `FEREmotionDetector.detect_emotion` (lines 28–88).  The current time `t`,
the classifier outcome and the fallback's pending random draws are explicit
inputs; the returned pair is the Python return value. -/
def detect_emotion (s : StabState) (t : ℚ) (input : ClassifierResult)
    (fb : FallbackDraw) : StabState × (String × ℚ) :=
  let s0 := { s with frame_count := s.frame_count + 1 }
  -- Only process every 3rd frame for performance
  if s0.frame_count % 3 ≠ 0 then
    (s0, (s0.current_emotion, s0.emotion_confidence))
  else if s0.ml_available = false then
    fallback_emotion s0 t fb
  else
    match input with
    | .exn => fallback_emotion s0 t fb          -- `except` → fallback
    | .ok [] => fallback_emotion s0 t fb        -- `results` empty → fallback
    | .ok (emotions :: _) =>
      -- dominant_emotion = max(emotions.items(), key=lambda x: x[1])[0]
      match pyMaxBy (fun kv => kv.2) emotions with
      | none => fallback_emotion s0 t fb        -- max() raises on empty dict → fallback
      | some (dom, score) =>
        let s1 := { s0 with
          emotion_buffer := appendBounded s0.emotion_buffer (dom, score * 100) }
        let s2 := voteStep s1 t
        (s2, (s2.current_emotion, s2.emotion_confidence))

/-- One external invocation of `detect_emotion`: the call time, the classifier
outcome and the random draws the fallback would consume. -/
structure CallInput where
  t : ℚ
  input : ClassifierResult
  fb : FallbackDraw

/-- Run a sequence of `detect_emotion` calls, threading the state. -/
def runCalls (s : StabState) : List CallInput → StabState
  | [] => s
  | c :: cs => runCalls (detect_emotion s c.t c.input c.fb).1 cs

/-! ## Observables of the vote, for stating its contract -/

/-- The buffer's mode label: the first key of the insertion-ordered counts
dict attaining the maximal count (`""` for an empty buffer). -/
def modeLabel (buf : List (String × ℚ)) : String :=
  ((pyMaxBy (fun kv => kv.2) (countsFold (buf.map Prod.fst))).map Prod.fst).getD ""

/-- Number of occurrences of label `l` in the buffer. -/
def labelCount (buf : List (String × ℚ)) (l : String) : ℕ :=
  (buf.map Prod.fst).count l

/-- Mean confidence over the buffer entries carrying the mode label. -/
def modeMeanConf (buf : List (String × ℚ)) : ℚ :=
  meanQ ((buf.filter (fun e => e.1 == modeLabel buf)).map Prod.snd)

/-- The four commit conditions of lines 72–75, over a post-append buffer. -/
def commitCond (s : StabState) (buf : List (String × ℚ)) (t : ℚ) : Prop :=
  modeLabel buf ≠ s.current_emotion ∧ 3 ≤ labelCount buf (modeLabel buf) ∧
    2 < t - s.last_emotion_change ∧ 60 < modeMeanConf buf

instance (s : StabState) (buf : List (String × ℚ)) (t : ℚ) :
    Decidable (commitCond s buf t) := by
  unfold commitCond; infer_instance

/-! ## Exact model of CPython float arithmetic

The aggregator computes with binary64 floats.  Every arithmetic operation in
CPython is correctly rounded, so each is modelled as the exact rational result
followed by `nearestDouble`, the round-to-nearest-ties-to-even binary64
approximation (exact for the normal range; the sub-2⁻³⁵⁰ and over-2⁴⁵⁰
fringes, irrelevant here, fall back to the identity when fuel runs out). -/

/-- Round a rational to the nearest integer, ties to even. -/
def roundHalfEvenQ (q : ℚ) : ℤ :=
  let f := ⌊q⌋
  let r := q - (f : ℚ)
  if r < 1/2 then f
  else if 1/2 < r then f + 1
  else if f % 2 = 0 then f else f + 1

/-- Scale a positive rational into the binary64 significand range
`[2^52, 2^53)`, returning the scaled value and the binary exponent `e`
(so that `value = scaled * 2^e`).  Fuel-bounded structural recursion. -/
def sclDouble : ℕ → ℚ → ℤ → ℚ × ℤ
  | 0, a, e => (a, e)
  | fuel + 1, a, e =>
    if a < (2 : ℚ) ^ (52 : ℕ) then sclDouble fuel (2 * a) (e - 1)
    else if (2 : ℚ) ^ (53 : ℕ) ≤ a then sclDouble fuel (a / 2) (e + 1)
    else (a, e)

/-- The exact value of the binary64 double nearest to `q`
(round to nearest, ties to even). -/
def nearestDouble (q : ℚ) : ℚ :=
  if q.num = 0 then 0
  else
    let a := |q|
    let me := sclDouble 520 a 0
    let m : ℚ := (roundHalfEvenQ me.1 : ℚ)
    let r := if 0 ≤ me.2 then m * (2 : ℚ) ^ me.2.toNat else m / (2 : ℚ) ^ (-me.2).toNat
    if q < 0 then -r else r

/-- The exact decimal value of CPython's `round(x, 2)` on a float `x` whose
exact value is `q`: correct rounding to two decimal digits, ties to even. -/
def pyRoundDec2 (q : ℚ) : ℚ := (roundHalfEvenQ (q * 100) : ℚ) / 100

/-- CPython's `round(x, 2)` as the float actually returned: the nearest
double to the two-decimal rounding of `x`. -/
def pyRound2 (q : ℚ) : ℚ := nearestDouble (pyRoundDec2 q)

/-! ## Analytics Aggregator (`main.py`, `get_analytics`, lines 521–565) -/

/-- A row of `detection_logs` as the aggregator reads it: `is_present` is the
Integer column (written as 1/0), `emotion` the nullable String column. -/
structure DetectionRow where
  is_present : ℤ
  emotion : Option String
  confidence : Option ℚ
  deriving DecidableEq, Repr

/-- Python truthiness of the nullable `emotion` column (`if d.emotion`):
false for `None` and for the empty string. -/
def truthyEmotion : Option String → Bool
  | none => false
  | some e => e ≠ ""

/-- The result record of `get_analytics`; `emotion_distribution` is the
insertion-ordered counts dict. -/
structure AnalyticsSummary where
  total_detections : ℕ
  presence_percentage : ℚ
  emotion_distribution : List (String × ℕ)
  working_hours : ℚ
  deriving DecidableEq, Repr

/-- `get_analytics` on an already-fetched list of rows (lines 536–563).
Float steps: `present_count / total` is a correctly rounded int division,
`* 100` a correctly rounded product; `present_count * 0.5` is the exact
product of the (exactly converted) int with 0.5, `/ 60` correctly rounded;
both results pass through `round(_, 2)`. -/
def get_analytics (detections : List DetectionRow) : AnalyticsSummary :=
  if detections.isEmpty then
    { total_detections := 0
      presence_percentage := 0
      emotion_distribution := []
      working_hours := 0 }
  else
    let total := detections.length
    -- present_count = sum(1 for d in detections if d.is_present)
    let present_count := (detections.filter (fun d => d.is_present ≠ 0)).length
    let presence_percentage : ℚ :=
      if 0 < total then
        nearestDouble (nearestDouble ((present_count : ℚ) / (total : ℚ)) * 100)
      else 0
    -- emotion_counts[d.emotion] = emotion_counts.get(d.emotion, 0) + 1
    let emotion_counts := detections.foldl
      (fun m d =>
        if truthyEmotion d.emotion ∧ d.is_present ≠ 0 then
          bumpCount m (d.emotion.getD "")
        else m) []
    -- working_hours = (present_count * 0.5) / 60
    let working_hours : ℚ :=
      nearestDouble (nearestDouble (nearestDouble (present_count : ℚ) * (1/2)) / 60)
    { total_detections := total
      presence_percentage := pyRound2 presence_percentage
      emotion_distribution := emotion_counts
      working_hours := pyRound2 working_hours }

/-! ## Presence/Detection Sampler (`main.py`, `EnhancedEmotionDetector`) -/

/-- The fallible collaborator calls inside `detect_face_and_emotion`
(lines 226–268): the cascade result (a list of face rectangles, or an
exception), whether the `cv2` drawing calls succeed, and the stabilizer's
returned pair (`detect_emotion_enhanced` is total: every path of
`face_analyzer.detect_emotion` and `_detect_emotion_basic` returns a pair). -/
structure DetectEnv where
  cascade : Except Unit (List (ℕ × ℕ × ℕ × ℕ))
  annotate_ok : Bool
  stab : String × ℚ

/-- `detect_face_and_emotion` without the returned frame (the frame returned
is the input frame in every path, hence never `None`): yields
(is_present, emotion, confidence). Any exception inside its `try` is caught
and converted to `(False, None, None)`. -/
def detect_face_and_emotion (cv_available : Bool) (env : DetectEnv) :
    Bool × Option String × Option ℚ :=
  if cv_available = false then (false, none, none)
  else
    match env.cascade with
    | .error _ => (false, none, none)
    | .ok faces =>
      match faces with
      | [] => (false, none, none)
      | _ :: _ =>
        if env.annotate_ok = false then (false, none, none)
        else (true, some env.stab.1, some env.stab.2)

/-- The random draws and fallible rendering of `_get_demo_frame`
(lines 297–333): `random.random() > 0.3`, `random.choice(self.emotions)`,
`round(random.uniform(70, 95), 1)`, and the `np`/`cv2` frame construction,
which raises when those libraries are absent (caught by the bare `except`).
Encoded frame bytes are modelled as an opaque `ℕ` token. -/
structure DemoEnv where
  present_draw : Bool
  emotion_draw : String
  conf_draw : ℚ
  render : Except Unit ℕ

/-- `_get_demo_frame`: the demo observation, degraded to
`(None, False, None, None)` when rendering raises. -/
def get_demo_frame (env : DemoEnv) : Option ℕ × Bool × Option String × Option ℚ :=
  let is_present := env.present_draw
  let emotion := if is_present then some env.emotion_draw else none
  let confidence := if is_present then some env.conf_draw else none
  match env.render with
  | .error _ => (none, false, none, none)
  | .ok b => (some b, is_present, emotion, confidence)

/-- All collaborator outcomes one `get_frame` call can observe. -/
structure FrameEnv where
  cv_available : Bool
  init_camera : Bool
  read : Except Unit Bool
  detect : DetectEnv
  encode : Except Unit ℕ
  demo : DemoEnv

/-- `EnhancedEmotionDetector.get_frame` (lines 270–295), in the exception
monad: a `.error` result would mean an uncaught exception escaping to the
caller.  `initialize_camera` catches internally and returns a Bool;
`camera.read` and `cv2.imencode` may raise inside the `try`, whose handler
returns `(None, False, None, None)`. -/
def get_frame (env : FrameEnv) :
    Except Unit (Option ℕ × Bool × Option String × Option ℚ) :=
  if env.cv_available = false then .ok (get_demo_frame env.demo)
  else if env.init_camera = false then .ok (none, false, none, none)
  else
    match env.read with
    | .error _ => .ok (none, false, none, none)
    | .ok ret =>
      if ret = false then .ok (none, false, none, none)
      else
        let r := detect_face_and_emotion env.cv_available env.detect
        -- processed_frame is never None, so the `is not None` branch is taken
        match env.encode with
        | .error _ => .ok (none, false, none, none)
        | .ok b => .ok (some b, r.1, r.2.1, r.2.2)

/-! ## Persistence (`main.py`, `create_detection`, lines 447–477) -/

/-- A SQLAlchemy session: rows already committed to the store, plus the
pending (uncommitted) inserts of the open transaction. -/
structure Session where
  committed : List DetectionRow
  pending : List DetectionRow
  deriving DecidableEq, Repr

/-- `db.add(detection)`: stage an insert in the open transaction. -/
def Session.add (s : Session) (r : DetectionRow) : Session :=
  { s with pending := s.pending ++ [r] }

/-- `db.commit()`: apply the pending inserts. -/
def Session.commitTx (s : Session) : Session :=
  { committed := s.committed ++ s.pending, pending := [] }

/-- `db.rollback()`: discard the pending inserts. -/
def Session.rollbackTx (s : Session) : Session :=
  { s with pending := [] }

/-- Which database call inside the `try` of `create_detection` raises
(`ok` when none does).  A failing call leaves the session as it was before
that call. -/
inductive DbFault where
  | ok
  | onAdd
  | onCommit
  | onRefresh
  deriving DecidableEq, Repr

/-- `create_detection`'s persistence block: `add`; `commit`; `refresh`;
on any exception the handler runs `db.rollback()` and raises
`HTTPException(status_code=500)`, modelled as `.error 500`. -/
def create_detection (db : Session) (row : DetectionRow) (fault : DbFault) :
    Session × Except ℕ DetectionRow :=
  match fault with
  | .onAdd => (db.rollbackTx, .error 500)
  | .onCommit => ((db.add row).rollbackTx, .error 500)
  | .onRefresh => (((db.add row).commitTx).rollbackTx, .error 500)
  | .ok => ((db.add row).commitTx, .ok row)

/-! ## Supporting lemmas -/

lemma foldl_pick_mem {α β : Type} [LinearOrder β] (f : α → β) :
    ∀ (xs : List α) (a : α),
      xs.foldl (fun best y => if f best < f y then y else best) a ∈ a :: xs := by
  intro xs
  induction xs with
  | nil => intro a; simp
  | cons y ys ih =>
    intro a
    have h := ih (if f a < f y then y else a)
    rcases List.mem_cons.mp h with h' | h'
    · rw [List.foldl_cons, h']
      by_cases hy : f a < f y <;> simp [hy]
    · rw [List.foldl_cons]
      exact List.mem_cons.mpr (.inr (List.mem_cons.mpr (.inr h')))

lemma pyMaxBy_mem {α β : Type} [LinearOrder β] {f : α → β} {l : List α} {x : α}
    (h : pyMaxBy f l = some x) : x ∈ l := by
  cases l with
  | nil => simp [pyMaxBy] at h
  | cons a as =>
    simp only [pyMaxBy, Option.some.injEq] at h
    subst h
    exact foldl_pick_mem f as a

lemma pyMaxBy_isSome {α β : Type} [LinearOrder β] (f : α → β) (a : α) (l : List α) :
    ∃ x, pyMaxBy f (a :: l) = some x := ⟨_, rfl⟩

/-- The insertion-ordered counts dict stores, for each key it holds, exactly
that key's number of occurrences in the processed list, and it holds exactly
the processed labels as keys. -/
lemma countsFold_go (ls : List String) :
    ∀ (acc : List (String × ℕ)) (done : List String),
      (∀ p ∈ acc, p.2 = done.count p.1) →
      (∀ l, l ∈ acc.map Prod.fst ↔ l ∈ done) →
      (∀ p ∈ ls.foldl bumpCount acc, p.2 = (done ++ ls).count p.1) ∧
      (∀ l, l ∈ (ls.foldl bumpCount acc).map Prod.fst ↔ l ∈ done ++ ls) := by
  induction ls with
  | nil =>
    intro acc done hcount hkeys
    constructor
    · intro p hp
      simpa using hcount p hp
    · intro x
      simpa using hkeys x
  | cons l ls ih =>
    intro acc done hcount hkeys
    rw [List.foldl_cons]
    have step := ih (bumpCount acc l) (done ++ [l]) ?_ ?_
    · constructor
      · intro p hp
        have := step.1 p hp
        simpa [List.append_assoc] using this
      · intro x
        have := step.2 x
        simpa [List.append_assoc] using this
    · -- counts invariant for the bumped dict
      intro p hp
      unfold bumpCount at hp
      by_cases hin : acc.any (fun q => q.1 == l)
      · rw [if_pos hin] at hp
        obtain ⟨q, hq, hpq⟩ := List.mem_map.mp hp
        by_cases hql : q.1 = l
        · rw [if_pos (by simpa using hql)] at hpq
          subst hpq
          simp only [hql, List.count_append]
          simp [hcount q hq, hql]
        · rw [if_neg (by simpa using hql)] at hpq
          subst hpq
          rw [List.count_append]
          have h0 : [l].count q.1 = 0 :=
            List.count_eq_zero_of_not_mem (by simp only [List.mem_singleton]; exact hql)
          rw [h0]
          simpa using hcount q hq
      · rw [if_neg hin] at hp
        rcases List.mem_append.mp hp with hpa | hpl
        · have hne : ¬ p.1 = l := by
            intro he
            exact hin (List.any_eq_true.mpr ⟨p, hpa, by simpa using he⟩)
          rw [List.count_append]
          have h0 : [l].count p.1 = 0 :=
            List.count_eq_zero_of_not_mem (by simp only [List.mem_singleton]; exact hne)
          rw [h0]
          simpa using hcount p hpa
        · have hpe : p = (l, 1) := by simpa using hpl
          subst hpe
          rw [List.count_append]
          have hnotdone : l ∉ done := by
            intro hd
            have hk := (hkeys l).mpr hd
            obtain ⟨q, hq, hq1⟩ := List.mem_map.mp hk
            exact hin (List.any_eq_true.mpr ⟨q, hq, by simpa using hq1⟩)
          simp [List.count_eq_zero_of_not_mem hnotdone]
    · -- keys invariant for the bumped dict
      intro x
      unfold bumpCount
      by_cases hin : acc.any (fun q => q.1 == l)
      · rw [if_pos hin]
        have hkey : (acc.map (fun p => if p.1 == l then (p.1, p.2 + 1) else p)).map Prod.fst
            = acc.map Prod.fst := by
          rw [List.map_map]
          apply List.map_congr_left
          intro p _
          by_cases hpl : p.1 = l
          · simp [hpl]
          · simp [if_neg (by simpa using hpl)]
        rw [hkey]
        constructor
        · intro hx
          exact List.mem_append.mpr (.inl ((hkeys x).mp hx))
        · intro hx
          rcases List.mem_append.mp hx with hx | hx
          · exact (hkeys x).mpr hx
          · have hxl : x = l := by simpa using hx
            subst hxl
            obtain ⟨q, hq, hq1⟩ := List.any_eq_true.mp hin
            exact List.mem_map.mpr ⟨q, hq, by simpa using hq1⟩
      · rw [if_neg hin]
        rw [List.map_append]
        simp only [List.mem_append, List.map_cons, List.map_nil, List.mem_singleton]
        rw [hkeys x]

lemma countsFold_count {ls : List String} {p : String × ℕ}
    (hp : p ∈ countsFold ls) : p.2 = ls.count p.1 := by
  have h := countsFold_go ls [] [] (by simp) (by simp)
  simpa using h.1 p hp

lemma countsFold_keys (ls : List String) (l : String) :
    l ∈ (countsFold ls).map Prod.fst ↔ l ∈ ls := by
  have h := countsFold_go ls [] [] (by simp) (by simp)
  simpa using h.2 l

lemma countsFold_ne_nil {ls : List String} (h : ls ≠ []) : countsFold ls ≠ [] := by
  cases ls with
  | nil => exact absurd rfl h
  | cons a as =>
    intro hnil
    have := (countsFold_keys (a :: as) a).mpr (List.mem_cons_self a as)
    rw [hnil] at this
    simp at this

lemma labelCount_le_length (buf : List (String × ℚ)) (l : String) :
    labelCount buf l ≤ buf.length := by
  unfold labelCount
  calc (buf.map Prod.fst).count l ≤ (buf.map Prod.fst).length := List.count_le_length _ _
    _ = buf.length := List.length_map _ _

lemma mode_spec {buf : List (String × ℚ)} {best : String} {c : ℕ}
    (h : pyMaxBy (fun kv => kv.2) (countsFold (buf.map Prod.fst)) = some (best, c)) :
    modeLabel buf = best ∧ c = labelCount buf best := by
  constructor
  · unfold modeLabel
    rw [h]
    rfl
  · have hmem := pyMaxBy_mem h
    have hc := countsFold_count hmem
    simpa [labelCount] using hc

lemma voteStep_buffer (s : StabState) (t : ℚ) :
    (voteStep s t).emotion_buffer = s.emotion_buffer := by
  unfold voteStep
  split
  · split
    · rfl
    · split <;> rfl
  · rfl

lemma voteStep_commit (s : StabState) (t : ℚ) (h : commitCond s s.emotion_buffer t) :
    voteStep s t = { s with
      current_emotion := modeLabel s.emotion_buffer
      emotion_confidence := modeMeanConf s.emotion_buffer
      last_emotion_change := t } := by
  obtain ⟨h1, h2, h3, h4⟩ := h
  have hlen : 3 ≤ s.emotion_buffer.length :=
    le_trans h2 (labelCount_le_length _ _)
  have hne : s.emotion_buffer ≠ [] := by
    intro hnil
    rw [hnil] at hlen
    simp at hlen
  have hkeys : countsFold (s.emotion_buffer.map Prod.fst) ≠ [] :=
    countsFold_ne_nil (by simpa using hne)
  unfold voteStep
  rw [if_pos hlen]
  split
  · rename_i heq
    exfalso
    cases hc : countsFold (s.emotion_buffer.map Prod.fst) with
    | nil => exact hkeys hc
    | cons a as =>
      rw [hc] at heq
      simp [pyMaxBy] at heq
  · rename_i best c hx
    obtain ⟨hbest, hcount⟩ := mode_spec hx
    have hmm : modeMeanConf s.emotion_buffer
        = meanQ ((s.emotion_buffer.filter (fun e => e.1 == best)).map Prod.snd) := by
      unfold modeMeanConf
      rw [hbest]
    have hcond : best ≠ s.current_emotion ∧ 3 ≤ c ∧
        2 < t - s.last_emotion_change ∧
        60 < meanQ ((s.emotion_buffer.filter (fun e => e.1 == best)).map Prod.snd) := by
      refine ⟨?_, ?_, h3, ?_⟩
      · rw [← hbest]; exact h1
      · rw [hcount, ← hbest]; exact h2
      · rw [← hmm]; exact h4
    rw [if_pos hcond, hbest, hmm]

lemma voteStep_skip (s : StabState) (t : ℚ) (h : ¬ commitCond s s.emotion_buffer t) :
    voteStep s t = s := by
  unfold voteStep
  split
  · rename_i hlen
    split
    · rfl
    · rename_i best c hx
      split
      · rename_i hcond
        obtain ⟨hbest, hcount⟩ := mode_spec hx
        exact absurd ⟨by rw [hbest]; exact hcond.1,
          by rw [hbest, ← hcount]; exact hcond.2.1,
          hcond.2.2.1,
          by unfold modeMeanConf; rw [hbest]; exact hcond.2.2.2⟩ h
      · rfl
  · rfl

lemma voteStep_cases (s : StabState) (t : ℚ) :
    voteStep s t = s ∨
      (commitCond s s.emotion_buffer t ∧ voteStep s t = { s with
        current_emotion := modeLabel s.emotion_buffer
        emotion_confidence := modeMeanConf s.emotion_buffer
        last_emotion_change := t }) := by
  by_cases h : commitCond s s.emotion_buffer t
  · exact .inr ⟨h, voteStep_commit s t h⟩
  · exact .inl (voteStep_skip s t h)

lemma detect_emotion_skip (s : StabState) (t : ℚ) (input : ClassifierResult)
    (fb : FallbackDraw) (h : (s.frame_count + 1) % 3 ≠ 0) :
    detect_emotion s t input fb =
      ({ s with frame_count := s.frame_count + 1 },
        (s.current_emotion, s.emotion_confidence)) := by
  unfold detect_emotion
  rw [if_pos]
  exact h

lemma detect_emotion_process (s : StabState) (t : ℚ)
    (emotions : List (String × ℚ)) (rest : List (List (String × ℚ)))
    (fb : FallbackDraw) (dom : String) (score : ℚ)
    (h1 : (s.frame_count + 1) % 3 = 0) (h2 : s.ml_available = true)
    (h3 : pyMaxBy (fun kv => kv.2) emotions = some (dom, score)) :
    detect_emotion s t (.ok (emotions :: rest)) fb =
      (voteStep { s with
          frame_count := s.frame_count + 1
          emotion_buffer := appendBounded s.emotion_buffer (dom, score * 100) } t,
        ((voteStep { s with
          frame_count := s.frame_count + 1
          emotion_buffer := appendBounded s.emotion_buffer (dom, score * 100) } t).current_emotion,
         (voteStep { s with
          frame_count := s.frame_count + 1
          emotion_buffer := appendBounded s.emotion_buffer (dom, score * 100) } t).emotion_confidence)) := by
  unfold detect_emotion
  rw [if_neg (by simpa using h1), if_neg (by simp [h2])]
  dsimp only
  rw [h3]

lemma fallback_hold (s : StabState) (t : ℚ) (fb : FallbackDraw)
    (h : ¬ 10 < t - s.last_emotion_change) :
    fallback_emotion s t fb = (s, (s.current_emotion, s.emotion_confidence)) := by
  unfold fallback_emotion
  rw [if_neg h]

lemma fallback_cases (s : StabState) (t : ℚ) (fb : FallbackDraw) :
    fallback_emotion s t fb = (s, (s.current_emotion, s.emotion_confidence)) ∨
      (10 < t - s.last_emotion_change ∧
        fallback_emotion s t fb = ({ s with
            current_emotion := fb.emotion
            emotion_confidence := fb.confidence
            last_emotion_change := t },
          (fb.emotion, fb.confidence))) := by
  by_cases h : 10 < t - s.last_emotion_change
  · refine .inr ⟨h, ?_⟩
    unfold fallback_emotion
    rw [if_pos h]
  · exact .inl (fallback_hold s t fb h)

/-- Every `detect_emotion` call is one of: the frame-skip return, a call into
the fallback policy, or a buffer append followed by the vote step. -/
lemma detect_emotion_shape (s : StabState) (t : ℚ) (input : ClassifierResult)
    (fb : FallbackDraw) :
    detect_emotion s t input fb
        = ({ s with frame_count := s.frame_count + 1 },
           (s.current_emotion, s.emotion_confidence)) ∨
    detect_emotion s t input fb
        = fallback_emotion { s with frame_count := s.frame_count + 1 } t fb ∨
    ∃ dom score, detect_emotion s t input fb
        = (voteStep { s with
              frame_count := s.frame_count + 1
              emotion_buffer := appendBounded s.emotion_buffer (dom, score * 100) } t,
           ((voteStep { s with
              frame_count := s.frame_count + 1
              emotion_buffer := appendBounded s.emotion_buffer (dom, score * 100) } t).current_emotion,
            (voteStep { s with
              frame_count := s.frame_count + 1
              emotion_buffer := appendBounded s.emotion_buffer (dom, score * 100) } t).emotion_confidence)) := by
  by_cases hskip : (s.frame_count + 1) % 3 ≠ 0
  · exact .inl (detect_emotion_skip s t input fb hskip)
  · push_neg at hskip
    by_cases hml : s.ml_available = true
    · cases input with
      | exn =>
        refine .inr (.inl ?_)
        unfold detect_emotion
        rw [if_neg (by simpa using hskip), if_neg (by simp [hml])]
      | ok results =>
        cases results with
        | nil =>
          refine .inr (.inl ?_)
          unfold detect_emotion
          rw [if_neg (by simpa using hskip), if_neg (by simp [hml])]
        | cons emotions rest =>
          cases hpy : pyMaxBy (fun kv => kv.2) emotions with
          | none =>
            refine .inr (.inl ?_)
            unfold detect_emotion
            rw [if_neg (by simpa using hskip), if_neg (by simp [hml])]
            dsimp only
            rw [hpy]
          | some ds =>
            obtain ⟨dom, score⟩ := ds
            exact .inr (.inr ⟨dom, score,
              detect_emotion_process s t emotions rest fb dom score hskip hml hpy⟩)
    · refine .inr (.inl ?_)
      unfold detect_emotion
      rw [if_neg (by simpa using hskip), if_pos (by simpa using hml)]

lemma appendBounded_length_le (buf : List (String × ℚ)) (e : String × ℚ) :
    (appendBounded buf e).length ≤ buf.length + 1 := by
  unfold appendBounded
  split
  · simp
  · simp

lemma appendBounded_le_five {buf : List (String × ℚ)} (e : String × ℚ)
    (h : buf.length ≤ 5) : (appendBounded buf e).length ≤ 5 := by
  unfold appendBounded
  split
  · rename_i hgt
    simp only [List.length_tail, List.length_append, List.length_singleton]
    omega
  · rename_i hle
    simp only [List.length_append, List.length_singleton] at *
    omega

lemma appendBounded_full {buf : List (String × ℚ)} (e : String × ℚ)
    (h : buf.length = 5) : appendBounded buf e = buf.tail ++ [e] := by
  unfold appendBounded
  rw [if_pos (by simp [h])]
  cases buf with
  | nil => simp at h
  | cons a as => simp

lemma voteStep_short {s : StabState} (t : ℚ) (h : s.emotion_buffer.length < 3) :
    voteStep s t = s := by
  unfold voteStep
  rw [if_neg (by omega)]

lemma detect_emotion_buffer_le (s : StabState) (t : ℚ) (input : ClassifierResult)
    (fb : FallbackDraw) (h : s.emotion_buffer.length ≤ 5) :
    (detect_emotion s t input fb).1.emotion_buffer.length ≤ 5 := by
  rcases detect_emotion_shape s t input fb with hE | hE | ⟨dom, score, hE⟩
  · rw [hE]; exact h
  · rw [hE]
    rcases fallback_cases { s with frame_count := s.frame_count + 1 } t fb with hF | ⟨_, hF⟩
    · rw [hF]; exact h
    · rw [hF]; exact h
  · rw [hE]
    show (voteStep _ t).emotion_buffer.length ≤ 5
    rw [voteStep_buffer]
    exact appendBounded_le_five _ h

lemma runCalls_buffer_le (cs : List CallInput) :
    ∀ s : StabState, s.emotion_buffer.length ≤ 5 →
      (runCalls s cs).emotion_buffer.length ≤ 5 := by
  induction cs with
  | nil => intro s h; exact h
  | cons c cs ih =>
    intro s h
    exact ih _ (detect_emotion_buffer_le s c.t c.input c.fb h)

lemma detect_emotion_conf_gt (s : StabState) (t : ℚ) (input : ClassifierResult)
    (fb : FallbackDraw) (hs : 60 < s.emotion_confidence) (hfb : 70 ≤ fb.confidence) :
    60 < (detect_emotion s t input fb).1.emotion_confidence := by
  rcases detect_emotion_shape s t input fb with hE | hE | ⟨dom, score, hE⟩
  · rw [hE]; exact hs
  · rw [hE]
    rcases fallback_cases { s with frame_count := s.frame_count + 1 } t fb with hF | ⟨_, hF⟩
    · rw [hF]; exact hs
    · rw [hF]
      show (60 : ℚ) < fb.confidence
      linarith
  · rw [hE]
    show 60 < (voteStep _ t).emotion_confidence
    rcases voteStep_cases { s with
        frame_count := s.frame_count + 1
        emotion_buffer := appendBounded s.emotion_buffer (dom, score * 100) } t
      with hV | ⟨hc, hV⟩
    · rw [hV]; exact hs
    · rw [hV]
      exact hc.2.2.2

lemma runCalls_conf_gt (cs : List CallInput) :
    ∀ s : StabState, 60 < s.emotion_confidence →
      (∀ c ∈ cs, 70 ≤ c.fb.confidence) →
      60 < (runCalls s cs).emotion_confidence := by
  induction cs with
  | nil => intro s h _; exact h
  | cons c cs ih =>
    intro s h hall
    exact ih _ (detect_emotion_conf_gt s c.t c.input c.fb h
        (hall c (List.mem_cons_self c cs)))
      (fun d hd => hall d (List.mem_cons_of_mem c hd))


/-! ## Claims -/

/-- C1: For every call of the stabilizer's `detect_emotion` that processes
real classifier output, the current (emotion, confidence) state is replaced
by the buffer's mode label and its mean confidence only if all four commit
conditions hold (mode differs from current, mode count ≥ 3, more than 2.0 s
since the last change, mean confidence over 60); if any condition fails,
`current_emotion` and `emotion_confidence` are unchanged by the vote step. -/
theorem detect_emotion_vote_commit_iff (s : StabState) (t : ℚ)
    (emotions : List (String × ℚ)) (rest : List (List (String × ℚ)))
    (fb : FallbackDraw) (dom : String) (score : ℚ)
    (h1 : (s.frame_count + 1) % 3 = 0) (h2 : s.ml_available = true)
    (h3 : pyMaxBy (fun kv => kv.2) emotions = some (dom, score)) :
    (commitCond s (detect_emotion s t (.ok (emotions :: rest)) fb).1.emotion_buffer t →
        (detect_emotion s t (.ok (emotions :: rest)) fb).1.current_emotion
            = modeLabel (detect_emotion s t (.ok (emotions :: rest)) fb).1.emotion_buffer ∧
        (detect_emotion s t (.ok (emotions :: rest)) fb).1.emotion_confidence
            = modeMeanConf (detect_emotion s t (.ok (emotions :: rest)) fb).1.emotion_buffer) ∧
    (¬ commitCond s (detect_emotion s t (.ok (emotions :: rest)) fb).1.emotion_buffer t →
        (detect_emotion s t (.ok (emotions :: rest)) fb).1.current_emotion
            = s.current_emotion ∧
        (detect_emotion s t (.ok (emotions :: rest)) fb).1.emotion_confidence
            = s.emotion_confidence) := by
  rw [detect_emotion_process s t emotions rest fb dom score h1 h2 h3]
  dsimp only
  rw [voteStep_buffer]
  constructor
  · intro hc
    rw [voteStep_commit _ t hc]
    exact ⟨rfl, rfl⟩
  · intro hc
    rw [voteStep_skip _ t hc]
    exact ⟨rfl, rfl⟩

/-- C1 witness: a concrete commit — buffer `[happy@70, happy@70]`, a third
`happy` sample arrives, all four conditions hold, and the state flips from
`neutral` to `happy` at mean confidence 70. -/
theorem detect_emotion_vote_commit_iff_witness :
    (detect_emotion
        { current_emotion := "neutral", emotion_confidence := 85,
          last_emotion_change := 0,
          emotion_buffer := [("happy", 70), ("happy", 70)],
          frame_count := 2, ml_available := true }
        5 (.ok [[("happy", mkRat 7 10)]]) ⟨"sad", 80⟩).1.current_emotion = "happy" ∧
    (detect_emotion
        { current_emotion := "neutral", emotion_confidence := 85,
          last_emotion_change := 0,
          emotion_buffer := [("happy", 70), ("happy", 70)],
          frame_count := 2, ml_available := true }
        5 (.ok [[("happy", mkRat 7 10)]]) ⟨"sad", 80⟩).1.emotion_confidence = 70 := by
  have h := detect_emotion_vote_commit_iff
    { current_emotion := "neutral", emotion_confidence := 85,
      last_emotion_change := 0,
      emotion_buffer := [("happy", 70), ("happy", 70)],
      frame_count := 2, ml_available := true }
    5 [("happy", mkRat 7 10)] [] ⟨"sad", 80⟩ "happy" (mkRat 7 10)
    (by decide) rfl rfl
  have hc := h.1 (by with_unfolding_all decide)
  refine ⟨hc.1.trans (by with_unfolding_all decide), hc.2.trans ?_⟩
  exact Rat.ext (by with_unfolding_all decide) (by with_unfolding_all decide)

/-- C2 counterexample: a state whose buffer is empty (fewer than 3 entries),
yet a no-face input routed to the fallback policy reassigns
`current_emotion` (dwell exceeded), so the claim "current_emotion is the
same after the call, whatever the input" is false. -/
theorem detect_emotion_small_buffer_cex :
    ({ current_emotion := "neutral", emotion_confidence := 85,
       last_emotion_change := 0, emotion_buffer := [],
       frame_count := 2, ml_available := true } : StabState).emotion_buffer.length < 3 ∧
    (detect_emotion
        { current_emotion := "neutral", emotion_confidence := 85,
          last_emotion_change := 0, emotion_buffer := [],
          frame_count := 2, ml_available := true }
        11 (.ok []) ⟨"happy", 80⟩).1.current_emotion ≠ "neutral" := by
  with_unfolding_all decide

/-- C2 amended: on the real-classifier path (not the fallback), a call made
in a state whose buffer holds fewer than 2 entries leaves `current_emotion`
unchanged — after appending the new sample the buffer still has fewer than
3 entries, so no vote can fire.  (The original claim fails both because the
fallback path can reassign the emotion regardless of the buffer, and because
a 2-entry buffer gains a third entry during the call.) -/
theorem detect_emotion_small_buffer_amended (s : StabState) (t : ℚ)
    (emotions : List (String × ℚ)) (rest : List (List (String × ℚ)))
    (fb : FallbackDraw) (dom : String) (score : ℚ)
    (h2 : s.ml_available = true)
    (h3 : pyMaxBy (fun kv => kv.2) emotions = some (dom, score))
    (h4 : s.emotion_buffer.length < 2) :
    (detect_emotion s t (.ok (emotions :: rest)) fb).1.current_emotion
        = s.current_emotion := by
  by_cases hskip : (s.frame_count + 1) % 3 ≠ 0
  · rw [detect_emotion_skip s t _ fb hskip]
  · push_neg at hskip
    rw [detect_emotion_process s t emotions rest fb dom score hskip h2 h3]
    dsimp only
    rw [voteStep_short t (by
      show (appendBounded s.emotion_buffer (dom, score * 100)).length < 3
      have := appendBounded_length_le s.emotion_buffer (dom, score * 100)
      omega)]

/-- C2 amended witness: one-entry buffer, a matching second sample arrives on
the processing path, and `current_emotion` stays `neutral`. -/
theorem detect_emotion_small_buffer_amended_witness :
    (detect_emotion
        { current_emotion := "neutral", emotion_confidence := 85,
          last_emotion_change := 0, emotion_buffer := [("happy", 70)],
          frame_count := 2, ml_available := true }
        5 (.ok [[("happy", mkRat 7 10)]]) ⟨"sad", 80⟩).1.current_emotion
      = "neutral" := by
  have h := detect_emotion_small_buffer_amended
    { current_emotion := "neutral", emotion_confidence := 85,
      last_emotion_change := 0, emotion_buffer := [("happy", 70)],
      frame_count := 2, ml_available := true }
    5 [("happy", mkRat 7 10)] [] ⟨"sad", 80⟩ "happy" (mkRat 7 10)
    rfl rfl (by decide)
  exact h

/-- C3: a `detect_emotion` call made less than 2.0 seconds after the last
recorded emotion change leaves `current_emotion`, `emotion_confidence` and
`last_emotion_change` unchanged, whatever the input and whichever of the
real-classifier or fallback paths is taken. -/
theorem detect_emotion_dwell_guard (s : StabState) (t : ℚ)
    (input : ClassifierResult) (fb : FallbackDraw)
    (h : t - s.last_emotion_change < 2) :
    (detect_emotion s t input fb).1.current_emotion = s.current_emotion ∧
    (detect_emotion s t input fb).1.emotion_confidence = s.emotion_confidence ∧
    (detect_emotion s t input fb).1.last_emotion_change = s.last_emotion_change := by
  rcases detect_emotion_shape s t input fb with hE | hE | ⟨dom, score, hE⟩
  · rw [hE]
    exact ⟨rfl, rfl, rfl⟩
  · rw [hE]
    rcases fallback_cases { s with frame_count := s.frame_count + 1 } t fb
      with hF | ⟨hgt, hF⟩
    · rw [hF]
      exact ⟨rfl, rfl, rfl⟩
    · exfalso
      have hgt' : (10 : ℚ) < t - s.last_emotion_change := hgt
      linarith
  · rw [hE]
    dsimp only
    rcases voteStep_cases { s with
        frame_count := s.frame_count + 1
        emotion_buffer := appendBounded s.emotion_buffer (dom, score * 100) } t
      with hV | ⟨hc, hV⟩
    · rw [hV]
      exact ⟨rfl, rfl, rfl⟩
    · exfalso
      have htime : (2 : ℚ) < t - s.last_emotion_change := hc.2.2.1
      linarith

/-- C3 witness: 1.5 s after the last change, a full-commit-shaped input still
changes nothing. -/
theorem detect_emotion_dwell_guard_witness :
    (detect_emotion
        { current_emotion := "neutral", emotion_confidence := 85,
          last_emotion_change := 0,
          emotion_buffer := [("happy", 70), ("happy", 70)],
          frame_count := 2, ml_available := true }
        (mkRat 3 2) (.ok [[("happy", mkRat 7 10)]]) ⟨"sad", 80⟩).1.current_emotion
        = "neutral" ∧
    (detect_emotion
        { current_emotion := "neutral", emotion_confidence := 85,
          last_emotion_change := 0,
          emotion_buffer := [("happy", 70), ("happy", 70)],
          frame_count := 2, ml_available := true }
        (mkRat 3 2) (.ok [[("happy", mkRat 7 10)]]) ⟨"sad", 80⟩).1.last_emotion_change
        = 0 := by
  have h := detect_emotion_dwell_guard
    { current_emotion := "neutral", emotion_confidence := 85,
      last_emotion_change := 0,
      emotion_buffer := [("happy", 70), ("happy", 70)],
      frame_count := 2, ml_available := true }
    (mkRat 3 2) (.ok [[("happy", mkRat 7 10)]]) ⟨"sad", 80⟩
    (by with_unfolding_all decide)
  exact ⟨h.1, h.2.2.trans rfl⟩

/-- C4: on an invocation whose (incremented) counter is not a multiple of 3,
`detect_emotion` performs no classification work: it returns the current
(emotion, confidence) pair and the post-state differs from the pre-state in
the invocation counter alone. -/
theorem detect_emotion_throttle (s : StabState) (t : ℚ)
    (input : ClassifierResult) (fb : FallbackDraw)
    (h : (s.frame_count + 1) % 3 ≠ 0) :
    detect_emotion s t input fb =
      ({ s with frame_count := s.frame_count + 1 },
        (s.current_emotion, s.emotion_confidence)) :=
  detect_emotion_skip s t input fb h

/-- C4 witness: the very first call after construction (counter becomes 1)
is an intervening call and changes only the counter. -/
theorem detect_emotion_throttle_witness :
    detect_emotion (initialState 0 true) 7 .exn ⟨"happy", 80⟩ =
      ({ initialState 0 true with
          frame_count := (initialState 0 true).frame_count + 1 },
        ((initialState 0 true).current_emotion,
          (initialState 0 true).emotion_confidence)) :=
  detect_emotion_throttle (initialState 0 true) 7 .exn ⟨"happy", 80⟩ (by decide)

/-- C5: from the initial state, after any sequence of `detect_emotion` calls
the recent buffer holds at most K = 5 entries; and when a sample is appended
to a full (5-entry) buffer on the processing path, the oldest entry is the
one evicted (FIFO: the new buffer is the old tail plus the new sample). -/
theorem emotion_buffer_bound_fifo :
    (∀ (t0 : ℚ) (ml : Bool) (cs : List CallInput),
        (runCalls (initialState t0 ml) cs).emotion_buffer.length ≤ 5) ∧
    (∀ (s : StabState) (t : ℚ) (emotions : List (String × ℚ))
        (rest : List (List (String × ℚ))) (fb : FallbackDraw)
        (dom : String) (score : ℚ),
        (s.frame_count + 1) % 3 = 0 → s.ml_available = true →
        pyMaxBy (fun kv => kv.2) emotions = some (dom, score) →
        s.emotion_buffer.length = 5 →
        (detect_emotion s t (.ok (emotions :: rest)) fb).1.emotion_buffer
            = s.emotion_buffer.tail ++ [(dom, score * 100)]) := by
  constructor
  · intro t0 ml cs
    exact runCalls_buffer_le cs (initialState t0 ml) (by simp [initialState])
  · intro s t emotions rest fb dom score h1 h2 h3 h5
    rw [detect_emotion_process s t emotions rest fb dom score h1 h2 h3]
    dsimp only
    rw [voteStep_buffer]
    exact appendBounded_full (dom, score * 100) h5

/-- C5 witness: six consecutive identical-input calls never push the buffer
past 5 entries, and appending to a concrete full buffer drops its head. -/
theorem emotion_buffer_bound_fifo_witness :
    (runCalls (initialState 0 true)
        (List.replicate 6 ⟨1, .ok [[("happy", mkRat 7 10)]], ⟨"sad", 80⟩⟩)).emotion_buffer.length ≤ 5 ∧
    (detect_emotion
        { current_emotion := "neutral", emotion_confidence := 85,
          last_emotion_change := 0,
          emotion_buffer := [("a", 1), ("b", 2), ("c", 3), ("d", 4), ("e", 5)],
          frame_count := 2, ml_available := true }
        1 (.ok [[("happy", mkRat 7 10)]]) ⟨"sad", 80⟩).1.emotion_buffer
      = [("a", 1), ("b", 2), ("c", 3), ("d", 4), ("e", 5)].tail
          ++ [("happy", mkRat 7 10 * 100)] := by
  constructor
  · exact emotion_buffer_bound_fifo.1 0 true _
  · exact emotion_buffer_bound_fifo.2
      { current_emotion := "neutral", emotion_confidence := 85,
        last_emotion_change := 0,
        emotion_buffer := [("a", 1), ("b", 2), ("c", 3), ("d", 4), ("e", 5)],
        frame_count := 2, ml_available := true }
      1 [("happy", mkRat 7 10)] [] ⟨"sad", 80⟩ "happy" (mkRat 7 10)
      (by decide) rfl rfl (by decide)

/-- C10: along every call sequence from the initial state in which each
fallback confidence draw lies in [70, 85] (the range of
`random.uniform(70, 85)`), the stabilizer's `emotion_confidence` stays
strictly above 60: the initial value is 85, a vote commit requires mean
confidence above 60, and the fallback draw is at least 70. -/
theorem emotion_confidence_above_vote_threshold (t0 : ℚ) (ml : Bool)
    (cs : List CallInput)
    (h : ∀ c ∈ cs, 70 ≤ c.fb.confidence ∧ c.fb.confidence ≤ 85) :
    60 < (runCalls (initialState t0 ml) cs).emotion_confidence := by
  refine runCalls_conf_gt cs (initialState t0 ml) ?_ (fun c hc => (h c hc).1)
  show (60 : ℚ) < 85
  norm_num

/-- C10 witness: a skip call, a fallback reassignment and a vote commit in
sequence keep the confidence above 60. -/
theorem emotion_confidence_above_vote_threshold_witness :
    (∀ c ∈ ([⟨20, .exn, ⟨"sad", 71⟩⟩, ⟨40, .exn, ⟨"sad", 71⟩⟩,
        ⟨41, .ok [[("happy", mkRat 7 10)]], ⟨"sad", 84⟩⟩] : List CallInput),
      70 ≤ c.fb.confidence ∧ c.fb.confidence ≤ 85) ∧
    60 < (runCalls (initialState 0 true)
        [⟨20, .exn, ⟨"sad", 71⟩⟩, ⟨40, .exn, ⟨"sad", 71⟩⟩,
         ⟨41, .ok [[("happy", mkRat 7 10)]], ⟨"sad", 84⟩⟩]).emotion_confidence := by
  refine ⟨by with_unfolding_all decide, ?_⟩
  exact emotion_confidence_above_vote_threshold 0 true _ (by with_unfolding_all decide)

/-- C6: aggregating an empty set of detection events returns exactly
zero totals — the division by `total_detections` sits in the non-empty
branch and is never reached. -/
theorem get_analytics_empty :
    get_analytics [] =
      { total_detections := 0, presence_percentage := 0,
        emotion_distribution := [], working_hours := 0 } := rfl

/-- The four-event sample of the specification: present/happy, present/happy,
present/sad, absent. -/
def sampleEvents : List DetectionRow :=
  [ { is_present := 1, emotion := some "happy", confidence := some 80 },
    { is_present := 1, emotion := some "happy", confidence := some 82 },
    { is_present := 1, emotion := some "sad", confidence := some 70 },
    { is_present := 0, emotion := none, confidence := none } ]

set_option maxRecDepth 40000 in
/-- C7 counterexample: on the four-event sample the aggregator does NOT
return working_hours = 3 × 0.5 / 60 = 0.025: the code rounds the estimate
to two decimal places (`round(working_hours, 2)`), and the binary64 value
of 0.025 lies strictly above 1/40, so the result is 0.03, not 0.025. -/
theorem get_analytics_sample_cex :
    (get_analytics sampleEvents).working_hours ≠ 1 / 40 := fun h =>
  absurd (congrArg Rat.num h) (by with_unfolding_all decide)

set_option maxRecDepth 40000 in
/-- C7 amended: on the four-event sample the aggregator returns
presence_percentage = 75.0 and emotion_distribution = {happy: 2, sad: 1} as
claimed, but working_hours is the two-decimal rounding of the 0.025-hour
estimate — the float 0.03 (here, the binary64 double nearest 3/100). -/
theorem get_analytics_sample_amended :
    (get_analytics sampleEvents).total_detections = 4 ∧
    (get_analytics sampleEvents).presence_percentage = 75 ∧
    (get_analytics sampleEvents).emotion_distribution = [("happy", 2), ("sad", 1)] ∧
    (get_analytics sampleEvents).working_hours = nearestDouble (3 / 100) := by
  refine ⟨by with_unfolding_all decide,
    Rat.ext (by with_unfolding_all decide) (by with_unfolding_all decide),
    by with_unfolding_all decide,
    Rat.ext (by with_unfolding_all decide) (by with_unfolding_all decide)⟩

/-- C9: when the persistence write inside `create_detection` fails (the
`add` or the `commit` raises), the caller receives a failed operation
(HTTP 500), the transaction is rolled back, and — starting from a fresh
session — the store is left exactly as it was. -/
theorem create_detection_error_surfaced (db : Session) (row : DetectionRow)
    (fault : DbFault) (hp : db.pending = [])
    (hf : fault = .onAdd ∨ fault = .onCommit) :
    (create_detection db row fault).1 = db ∧
    (create_detection db row fault).2 = .error 500 := by
  rcases hf with hf | hf <;> subst hf
  · refine ⟨?_, rfl⟩
    show db.rollbackTx = db
    cases db with
    | mk c p => cases hp; rfl
  · refine ⟨?_, rfl⟩
    show (db.add row).rollbackTx = db
    cases db with
    | mk c p => cases hp; rfl

/-- C9 witness: a commit failure on an empty store is surfaced as error 500
and commits nothing. -/
theorem create_detection_error_surfaced_witness :
    (create_detection ⟨[], []⟩
        { is_present := 1, emotion := some "happy", confidence := some 80 }
        .onCommit).1 = (⟨[], []⟩ : Session) ∧
    (create_detection ⟨[], []⟩
        { is_present := 1, emotion := some "happy", confidence := some 80 }
        .onCommit).2 = .error 500 :=
  create_detection_error_surfaced ⟨[], []⟩
    { is_present := 1, emotion := some "happy", confidence := some 80 }
    .onCommit rfl (.inr rfl)

/-- C8: `get_frame` never propagates an exception: for every combination of
collaborator outcomes it returns `.ok` with a well-formed tuple in which
`emotion` and `confidence` are null exactly when `is_present` is false (in
demo mode, both are non-null exactly when presence is reported). -/
theorem get_frame_total_wellformed (env : FrameEnv) :
    ∃ out, get_frame env = Except.ok out ∧
      (out.2.1 = false ↔ out.2.2.1 = none) ∧
      (out.2.1 = false ↔ out.2.2.2 = none) := by
  unfold get_frame
  split
  · -- demo-mode branch
    unfold get_demo_frame
    split
    · exact ⟨_, rfl, by simp, by simp⟩
    · refine ⟨_, rfl, ?_, ?_⟩ <;>
        cases hp : env.demo.present_draw <;> simp [hp]
  · split
    · exact ⟨_, rfl, by simp, by simp⟩
    · split
      · exact ⟨_, rfl, by simp, by simp⟩
      · split
        · exact ⟨_, rfl, by simp, by simp⟩
        · split
          · exact ⟨_, rfl, by simp, by simp⟩
          · -- successful read and encode: the detection outcome decides the tuple
            unfold detect_face_and_emotion
            split
            · exact ⟨_, rfl, by simp, by simp⟩
            · split
              · exact ⟨_, rfl, by simp, by simp⟩
              · split
                · exact ⟨_, rfl, by simp, by simp⟩
                · split
                  · exact ⟨_, rfl, by simp, by simp⟩
                  · exact ⟨_, rfl, by simp, by simp⟩
